import Mathlib

/-!
Shallow embedding of the `moni` fixed-price NFT sale contract
(`src/contract.rs`, `src/error.rs`): the configuration record, the three
mutating entry points (`instantiate`, `reply`, `execute_receive`) and the
messages they emit, together with theorems settling the spec's claims.

Storage is modelled as `Option Config` (the single `CONFIG` item); each
entry point maps the stored value and its inputs to the new stored value
and an `Except` result, following the Rust control flow line by line.
`Uint128` and `u32` quantities are modelled as `Nat` (the only arithmetic
performed is the guarded `unused_token_id + 1`, which cannot overflow `u32`
because it is preceded by the `unused_token_id >= max_tokens` check, with
`max_tokens : u32`).
-/

namespace Moni

/-- Errors of `src/error.rs` (`ContractError`). `Std` carries the message of
a propagated `cosmwasm_std::StdError`, such as a failing `CONFIG.load` on an
empty store. -/
inductive ContractError where
  | Std (msg : String)
  | CustomError (val : String)
  | InvalidUnitPrice
  | InvalidMaxTokens
  | Cw721AlreadyLinked
  | InvalidTokenReplyId
  | SoldOut
  | UnauthorizedTokenContract
  | Uninitialized
  | WrongPaymentAmount
  | Cw721NotLinked
  deriving DecidableEq

/-- The `Config` record of `src/state.rs`, with the fields exactly as used by
`src/contract.rs` (addresses as strings, `Uint128`/`u32` as `Nat`;
`extension` is the `cw721_base::Extension` payload, opaque here). -/
structure Config where
  cw721_address : Option String
  cw20_address : String
  unit_price : Nat
  max_tokens : Nat
  owner : String
  name : String
  symbol : String
  token_uri : String
  extension : Option Unit
  unused_token_id : Nat
  deriving DecidableEq

/-- The `InstantiateMsg` of `src/msg.rs`, fields as consumed by
`instantiate` in `src/contract.rs`. -/
structure InstantiateMsg where
  max_tokens : Nat
  unit_price : Nat
  name : String
  symbol : String
  token_code_id : Nat
  cw20_address : String
  token_uri : String
  extension : Option Unit
  deriving DecidableEq

/-- `const INSTANTIATE_TOKEN_REPLY_ID: u64 = 1` in `src/contract.rs`. -/
def INSTANTIATE_TOKEN_REPLY_ID : Nat := 1

/-- The `cw721_base::InstantiateMsg` placed inside the deployment request. -/
structure Cw721InstantiateMsg where
  name : String
  symbol : String
  minter : String
  deriving DecidableEq

/-- The single `SubMsg` built by `instantiate`: a `WasmMsg::Instantiate`
tagged with a reply id (its `reply_on` is always `Success`, its `admin` is
`None` and its label a fixed string, so these carry no information). -/
structure SubMsg where
  code_id : Nat
  msg : Cw721InstantiateMsg
  id : Nat
  deriving DecidableEq

/-- The `MintMsg` built by `execute_receive` (the payload of the
`cw721_base::ExecuteMsg::Mint` sent to the collection contract). -/
structure MintMsg where
  token_id : String
  owner : String
  token_uri : Option String
  extension : Option Unit
  deriving DecidableEq

/-- The outbound `WasmMsg::Execute` produced by `Cw721Contract::call`:
the mint instruction addressed to the collection contract. -/
structure WasmExecute where
  contract_addr : String
  msg : MintMsg
  deriving DecidableEq

/-- `instantiate` of `src/contract.rs` (lines 24-76): validates
`unit_price` and `max_tokens`, saves the initial `Config`, and returns the
single deployment `SubMsg` tagged `INSTANTIATE_TOKEN_REPLY_ID`.
(`set_contract_version` writes a separate storage item, not `CONFIG`, and is
not modelled.) -/
def instantiate (store : Option Config) (env_contract_address : String)
    (info_sender : String) (msg : InstantiateMsg) :
    Option Config × Except ContractError (List SubMsg) :=
  if msg.unit_price = 0 then
    (store, .error .InvalidUnitPrice)
  else if msg.max_tokens = 0 then
    (store, .error .InvalidMaxTokens)
  else
    let config : Config :=
      { cw721_address := none
        cw20_address := msg.cw20_address
        unit_price := msg.unit_price
        max_tokens := msg.max_tokens
        owner := info_sender
        name := msg.name
        symbol := msg.symbol
        token_uri := msg.token_uri
        extension := msg.extension
        unused_token_id := 0 }
    (some config,
      .ok [{ code_id := msg.token_code_id
             msg := { name := msg.name
                      symbol := msg.symbol
                      minter := env_contract_address }
             id := INSTANTIATE_TOKEN_REPLY_ID }])

instance instDecEqExcept {α β : Type} [DecidableEq α] [DecidableEq β] :
    DecidableEq (Except α β) := fun x y =>
  match x, y with
  | .ok a, .ok b =>
    if h : a = b then .isTrue (by rw [h]) else .isFalse (by simp [h])
  | .error a, .error b =>
    if h : a = b then .isTrue (by rw [h]) else .isFalse (by simp [h])
  | .ok _, .error _ => .isFalse (by simp)
  | .error _, .ok _ => .isFalse (by simp)

/-- The `Reply` message received by the `reply` entry point. `parsed` is the
outcome of `parse_reply_instantiate_data(msg)`: the deployed contract's
address on success, the decode error otherwise; the parser itself lives in
the external `cw-utils` crate, so its result is taken as given per message. -/
structure Reply where
  id : Nat
  parsed : Except String String
  deriving DecidableEq

/-- Failure of the `reply` entry point. `panicDecode` models the
`.unwrap()` on a failed `parse_reply_instantiate_data` (line 91): the
contract panics, the host aborts the operation and surfaces the decode
failure; nothing is saved. -/
inductive ReplyFailure where
  | contract (e : ContractError)
  | panicDecode (e : String)
  deriving DecidableEq

/-- `reply` of `src/contract.rs` (lines 80-96): loads `CONFIG`, rejects if
already linked, then if the reply id is wrong, then unwraps the parsed
callback payload and stores the deployed address. -/
def reply (store : Option Config) (msg : Reply) :
    Option Config × Except ReplyFailure Unit :=
  match store with
  | none => (none, .error (.contract (.Std "moni::state::Config not found")))
  | some config =>
    if config.cw721_address ≠ none then
      (store, .error (.contract .Cw721AlreadyLinked))
    else if msg.id ≠ INSTANTIATE_TOKEN_REPLY_ID then
      (store, .error (.contract .InvalidTokenReplyId))
    else
      match msg.parsed with
      | .error e => (store, .error (.panicDecode e))
      | .ok contract_address =>
        (some { config with cw721_address := some contract_address }, .ok ())

/-- `execute_receive` of `src/contract.rs` (lines 114-156): the purchase
path reached through `ExecuteMsg::Receive`. Checks the paying contract,
the linkage, the supply cap and the payment amount in that order, then
builds the mint instruction, increments `unused_token_id` and saves. The
trailing `None` match arm of the source (line 154) is kept as written. -/
def execute_receive (store : Option Config) (info_sender : String)
    (sender : String) (amount : Nat) :
    Option Config × Except ContractError (List WasmExecute) :=
  match store with
  | none => (none, .error (.Std "moni::state::Config not found"))
  | some config =>
    if config.cw20_address ≠ info_sender then
      (store, .error .UnauthorizedTokenContract)
    else if config.cw721_address = none then
      (store, .error .Uninitialized)
    else if config.unused_token_id ≥ config.max_tokens then
      (store, .error .SoldOut)
    else if amount ≠ config.unit_price then
      (store, .error .WrongPaymentAmount)
    else
      let mint_msg : MintMsg :=
        { token_id := Nat.repr config.unused_token_id
          owner := sender
          token_uri := some config.token_uri
          extension := config.extension }
      match config.cw721_address with
      | some cw721 =>
        let config2 := { config with unused_token_id := config.unused_token_id + 1 }
        (some config2, .ok [{ contract_addr := cw721, msg := mint_msg }])
      | none => (store, .error .Cw721NotLinked)

/-- Iterated purchases: runs `execute_receive` `n` times with the same
payer and amount, collecting the emitted mint instructions; `none` as soon
as one purchase fails. -/
def runPurchases (info_sender sender : String) (amount : Nat) :
    Option Config → Nat → Option (Option Config × List WasmExecute)
  | store, 0 => some (store, [])
  | store, n + 1 =>
    match execute_receive store info_sender sender amount with
    | (store1, .ok msgs) =>
      match runPurchases info_sender sender amount store1 n with
      | some (store2, rest) => some (store2, msgs ++ rest)
      | none => none
    | (_, .error _) => none

/-! Concrete fixtures, mirroring the repository's own test (`make_nft`) and
the spec's scenario (`max_tokens = 5`, `unit_price = 3`, collection
`"collectionA"`). -/

def cfgUnlinked : Config :=
  { cw721_address := none
    cw20_address := "cw20"
    unit_price := 3
    max_tokens := 5
    owner := "alice"
    name := "FirstFT"
    symbol := "FFT"
    token_uri := "Sample"
    extension := none
    unused_token_id := 0 }

def cfgLinked : Config := { cfgUnlinked with cw721_address := some "collectionA" }

def cfgSoldOut : Config := { cfgLinked with unused_token_id := 5 }

def validMsg : InstantiateMsg :=
  { max_tokens := 5
    unit_price := 3
    name := "FirstFT"
    symbol := "FFT"
    token_code_id := 7046
    cw20_address := "cw20"
    token_uri := "Sample"
    extension := none }

def zeroPriceMsg : InstantiateMsg := { validMsg with unit_price := 0 }

def zeroMaxMsg : InstantiateMsg := { validMsg with max_tokens := 0 }

def zeroBothMsg : InstantiateMsg := { validMsg with unit_price := 0, max_tokens := 0 }

/-- C10: the purchase path never returns `Cw721NotLinked`: once the
`Uninitialized` check has passed, `cw721_address` is `Some`, so the `None`
arm of the final match (line 154 of `src/contract.rs`) is unreachable. -/
theorem C10_cw721_not_linked_unreachable (store : Option Config)
    (i s : String) (a : Nat) :
    (execute_receive store i s a).2 ≠ .error ContractError.Cw721NotLinked := by
  cases store with
  | none => simp [execute_receive]
  | some config =>
    cases hcw : config.cw721_address with
    | none =>
      simp only [execute_receive, hcw]
      split_ifs <;> simp
    | some cw721 =>
      simp only [execute_receive, hcw]
      split_ifs <;> simp

/-- C1 counterexample: with the collection already linked, a deployment
callback whose correlation id (2) differs from `INSTANTIATE_TOKEN_REPLY_ID`
fails with `Cw721AlreadyLinked`, not `InvalidTokenReplyId`: the linked-state
check of line 83 precedes the id check of line 87, so the claim's
"regardless of whether collection_identity is already present" is false. -/
theorem C1_counterexample :
    (reply (some cfgLinked) { id := 2, parsed := .ok "collectionB" }).2
        = .error (.contract .Cw721AlreadyLinked) ∧
    (reply (some cfgLinked) { id := 2, parsed := .ok "collectionB" }).2
        ≠ .error (.contract .InvalidTokenReplyId) := by
  constructor <;> decide

/-- C1 (amended): a deployment callback whose correlation id differs from
`INSTANTIATE_TOKEN_REPLY_ID` fails with `InvalidTokenReplyId` whenever
`collection_identity` is absent, and the stored record is unchanged. -/
theorem C1_wrong_reply_id (config : Config) (msg : Reply)
    (habs : config.cw721_address = none)
    (hid : msg.id ≠ INSTANTIATE_TOKEN_REPLY_ID) :
    reply (some config) msg
      = (some config, .error (.contract .InvalidTokenReplyId)) := by
  simp [reply, habs, hid]

theorem C1_wrong_reply_id_witness :
    reply (some cfgUnlinked) { id := 2, parsed := .ok "collectionA" }
      = (some cfgUnlinked, .error (.contract .InvalidTokenReplyId)) :=
  C1_wrong_reply_id cfgUnlinked { id := 2, parsed := .ok "collectionA" }
    rfl (by decide)

/-- C2: with the expected correlation id and no linkage yet, a callback whose
payload fails to decode aborts the reply operation, surfacing that decode
failure (the `.unwrap()` of line 91 panics and the host turns the panic into
an operation failure): the failure is propagated, not swallowed, the
operation does not complete successfully and nothing is saved. -/
theorem C2_decode_failure_propagates (config : Config) (msg : Reply) (e : String)
    (habs : config.cw721_address = none)
    (hid : msg.id = INSTANTIATE_TOKEN_REPLY_ID)
    (hp : msg.parsed = .error e) :
    reply (some config) msg = (some config, .error (.panicDecode e)) := by
  simp [reply, habs, hid, hp]

theorem C2_decode_failure_propagates_witness :
    reply (some cfgUnlinked) { id := 1, parsed := .error "unable to decode" }
      = (some cfgUnlinked, .error (.panicDecode "unable to decode")) :=
  C2_decode_failure_propagates cfgUnlinked
    { id := 1, parsed := .error "unable to decode" } "unable to decode"
    rfl rfl rfl

/-- C9: a deployment callback arriving while `collection_identity` is
already present fails with `Cw721AlreadyLinked` (whatever its id or
payload), and the stored record — in particular `cw721_address` — is
unchanged. -/
theorem C9_already_linked (config : Config) (addr : String) (msg : Reply)
    (hlink : config.cw721_address = some addr) :
    reply (some config) msg
      = (some config, .error (.contract .Cw721AlreadyLinked)) := by
  simp [reply, hlink]

theorem C9_already_linked_witness :
    reply (some cfgLinked) { id := 1, parsed := .ok "collectionB" }
      = (some cfgLinked, .error (.contract .Cw721AlreadyLinked)) :=
  C9_already_linked cfgLinked "collectionA"
    { id := 1, parsed := .ok "collectionB" } rfl

/-- C7 counterexample: a setup with both `unit_price = 0` and
`max_tokens = 0` fails with `InvalidUnitPrice`, not `InvalidMaxTokens` (the
`unit_price` check of line 33 precedes the `max_tokens` check of line 37),
so "for every setup request with max_tokens == 0, setup fails with
InvalidMaxTokens" is false as stated. -/
theorem C7_counterexample :
    (instantiate none "contract" "alice" zeroBothMsg).2
        = .error .InvalidUnitPrice ∧
    (instantiate none "contract" "alice" zeroBothMsg).2
        ≠ .error .InvalidMaxTokens := by
  constructor <;> decide

/-- C7 (amended): a setup with `unit_price = 0` fails with
`InvalidUnitPrice`; a setup with `max_tokens = 0` and `unit_price ≠ 0`
fails with `InvalidMaxTokens`; in both cases the store is untouched, so no
Configuration record is persisted. -/
theorem C7_zero_validation (store : Option Config) (env isender : String)
    (msg : InstantiateMsg) :
    (msg.unit_price = 0 →
      instantiate store env isender msg = (store, .error .InvalidUnitPrice)) ∧
    (msg.max_tokens = 0 → msg.unit_price ≠ 0 →
      instantiate store env isender msg = (store, .error .InvalidMaxTokens)) := by
  constructor
  · intro h
    simp [instantiate, h]
  · intro h h2
    simp [instantiate, h, h2]

theorem C7_zero_validation_witness :
    instantiate none "contract" "alice" zeroPriceMsg
        = (none, .error .InvalidUnitPrice) ∧
    instantiate none "contract" "alice" zeroMaxMsg
        = (none, .error .InvalidMaxTokens) :=
  ⟨(C7_zero_validation none "contract" "alice" zeroPriceMsg).1 rfl,
   (C7_zero_validation none "contract" "alice" zeroMaxMsg).2 rfl (by decide)⟩

/-- C8: every successful setup stores a Configuration with `cw721_address`
absent, `unused_token_id = 0`, the caller as owner and the given
parameters, and returns exactly one deployment submessage, tagged
`INSTANTIATE_TOKEN_REPLY_ID` and naming this contract as minter. -/
theorem C8_successful_setup (store : Option Config) (env isender : String)
    (msg : InstantiateMsg)
    (hp : msg.unit_price ≠ 0) (hm : msg.max_tokens ≠ 0) :
    instantiate store env isender msg =
      (some { cw721_address := none
              cw20_address := msg.cw20_address
              unit_price := msg.unit_price
              max_tokens := msg.max_tokens
              owner := isender
              name := msg.name
              symbol := msg.symbol
              token_uri := msg.token_uri
              extension := msg.extension
              unused_token_id := 0 },
       .ok [{ code_id := msg.token_code_id
              msg := { name := msg.name
                       symbol := msg.symbol
                       minter := env }
              id := INSTANTIATE_TOKEN_REPLY_ID }]) := by
  simp [instantiate, hp, hm]

theorem C8_successful_setup_witness :
    instantiate none "contract" "alice" validMsg =
      (some cfgUnlinked,
       .ok [{ code_id := 7046
              msg := { name := "FirstFT", symbol := "FFT", minter := "contract" }
              id := INSTANTIATE_TOKEN_REPLY_ID }]) :=
  C8_successful_setup none "contract" "alice" validMsg (by decide) (by decide)

/-- C5: a purchase attempt that fails with any error leaves the stored
Configuration record — in particular `unused_token_id` — unchanged; and
since the result is an error, no mint instruction is emitted (messages are
only carried by the `.ok` outcome). -/
theorem C5_failed_purchase_no_mutation (store : Option Config)
    (i s : String) (a : Nat) (e : ContractError)
    (h : (execute_receive store i s a).2 = .error e) :
    (execute_receive store i s a).1 = store := by
  cases store with
  | none => simp [execute_receive]
  | some config =>
    cases hcw : config.cw721_address with
    | none =>
      simp only [execute_receive, hcw]
      split_ifs <;> rfl
    | some cw721 =>
      simp only [execute_receive, hcw] at h ⊢
      split_ifs at h ⊢ <;> simp_all

theorem C5_failed_purchase_no_mutation_witness :
    (execute_receive (some cfgLinked) "cw20" "bob" 2).1 = some cfgLinked :=
  C5_failed_purchase_no_mutation (some cfgLinked) "cw20" "bob" 2
    .WrongPaymentAmount (by decide)

/-- C6: the purchase preconditions are checked in the order paying-contract
authorization, collection linkage, supply cap, payment amount, and the
attempt fails with the error of the first violated one; the third conjunct
holds for every amount, so a sold-out attempt with a wrong amount fails
with `SoldOut`, not `WrongPaymentAmount`. -/
theorem C6_precondition_order (config : Config) (i s : String) (a : Nat) :
    (config.cw20_address ≠ i →
      (execute_receive (some config) i s a).2
        = .error .UnauthorizedTokenContract) ∧
    (config.cw20_address = i → config.cw721_address = none →
      (execute_receive (some config) i s a).2 = .error .Uninitialized) ∧
    (config.cw20_address = i → config.cw721_address ≠ none →
      config.unused_token_id ≥ config.max_tokens →
      (execute_receive (some config) i s a).2 = .error .SoldOut) ∧
    (config.cw20_address = i → config.cw721_address ≠ none →
      config.unused_token_id < config.max_tokens → a ≠ config.unit_price →
      (execute_receive (some config) i s a).2
        = .error .WrongPaymentAmount) := by
  refine ⟨?_, ?_, ?_, ?_⟩ <;> intros <;>
    simp_all [execute_receive, Nat.not_le_of_lt]

theorem C6_precondition_order_witness :
    (execute_receive (some cfgSoldOut) "cw20" "bob" 2).2 = .error .SoldOut ∧
    (execute_receive (some cfgLinked) "other" "bob" 3).2
        = .error .UnauthorizedTokenContract ∧
    (execute_receive (some cfgUnlinked) "cw20" "bob" 3).2
        = .error .Uninitialized ∧
    (execute_receive (some cfgLinked) "cw20" "bob" 2).2
        = .error .WrongPaymentAmount :=
  ⟨(C6_precondition_order cfgSoldOut "cw20" "bob" 2).2.2.1 rfl
      (by decide) (by decide),
   (C6_precondition_order cfgLinked "other" "bob" 3).1 (by decide),
   (C6_precondition_order cfgUnlinked "cw20" "bob" 3).2.1 rfl rfl,
   (C6_precondition_order cfgLinked "cw20" "bob" 2).2.2.2 rfl
      (by decide) (by decide) (by decide)⟩

/-- A purchase with all four preconditions met: the counter advances by
exactly one and the single mint instruction for token id
`unused_token_id` is returned. -/
theorem execute_receive_ok (config : Config) (cw721 s : String)
    (hlink : config.cw721_address = some cw721)
    (hcap : config.unused_token_id < config.max_tokens) :
    execute_receive (some config) config.cw20_address s config.unit_price =
      (some { config with unused_token_id := config.unused_token_id + 1 },
       .ok [{ contract_addr := cw721
              msg := { token_id := Nat.repr config.unused_token_id
                       owner := s
                       token_uri := some config.token_uri
                       extension := config.extension } }]) := by
  simp [execute_receive, hlink, ge_iff_le, Nat.not_le.mpr hcap]

/-- C4: setup establishes `unused_token_id ≤ max_tokens`; the deployment
callback never changes the counter and preserves the bound; a purchase
preserves the bound and never decreases the counter; a successful purchase
increments it by exactly 1; and no purchase succeeds while
`cw721_address` is absent. -/
theorem C4_invariants (c : Config) (env isender psender sender : String)
    (imsg : InstantiateMsg) (rmsg : Reply) (amount : Nat)
    (hinv : c.unused_token_id ≤ c.max_tokens) :
    (∀ c1, (instantiate none env isender imsg).1 = some c1 →
      c1.unused_token_id ≤ c1.max_tokens) ∧
    (∀ c1, (reply (some c) rmsg).1 = some c1 →
      c1.unused_token_id = c.unused_token_id ∧
      c1.unused_token_id ≤ c1.max_tokens) ∧
    (∀ c1, (execute_receive (some c) psender sender amount).1 = some c1 →
      c1.unused_token_id ≤ c1.max_tokens ∧
      c.unused_token_id ≤ c1.unused_token_id) ∧
    (∀ msgs, (execute_receive (some c) psender sender amount).2 = .ok msgs →
      (execute_receive (some c) psender sender amount).1
        = some { c with unused_token_id := c.unused_token_id + 1 }) ∧
    (c.cw721_address = none →
      ∀ msgs, (execute_receive (some c) psender sender amount).2 ≠ .ok msgs) := by
  refine ⟨?_, ?_, ?_, ?_, ?_⟩
  · intro c1 h
    simp only [instantiate] at h
    split_ifs at h
    all_goals (simp only [Option.some.injEq] at h; subst h; exact Nat.zero_le _)
  · intro c1 h
    cases hcw : c.cw721_address with
    | some addr =>
      simp [reply, hcw] at h
      subst h
      exact ⟨rfl, hinv⟩
    | none =>
      simp only [reply, hcw] at h
      split_ifs at h
      all_goals try (simp only [Option.some.injEq] at h; subst h; exact ⟨rfl, hinv⟩)
      cases hp : rmsg.parsed with
      | error e =>
        rw [hp] at h
        simp at h
        subst h
        exact ⟨rfl, hinv⟩
      | ok addr =>
        rw [hp] at h
        simp at h
        subst h
        exact ⟨rfl, hinv⟩
  · intro c1 h
    cases hcw : c.cw721_address with
    | none =>
      simp only [execute_receive, hcw] at h
      split_ifs at h <;> simp only [Option.some.injEq] at h <;> subst h <;>
        exact ⟨hinv, Nat.le_refl _⟩
    | some cw721 =>
      simp only [execute_receive, hcw] at h
      split_ifs at h <;> simp only [Option.some.injEq] at h <;> subst h <;>
        constructor <;> (try simp) <;> omega
  · intro msgs h
    cases hcw : c.cw721_address with
    | none =>
      simp only [execute_receive, hcw] at h
      split_ifs at h <;> simp_all
    | some cw721 =>
      simp only [execute_receive, hcw] at h ⊢
      split_ifs at h ⊢ <;> simp_all
  · intro hcw msgs
    simp only [execute_receive, hcw]
    split_ifs <;> simp

theorem C4_invariants_witness :
    (execute_receive (some cfgLinked) "cw20" "bob" 3).1
      = some { cfgLinked with unused_token_id := cfgLinked.unused_token_id + 1 } :=
  (C4_invariants cfgLinked "contract" "alice" "cw20" "bob" validMsg
      { id := 1, parsed := .ok "collectionA" } 3 (by decide)).2.2.2.1
    [{ contract_addr := "collectionA"
       msg := { token_id := "0", owner := "bob"
                token_uri := some "Sample", extension := none } }]
    (by decide)

/-- Iterated purchases, generalized: from any linked configuration with
`unused_token_id + N ≤ max_tokens`, all `N` purchases succeed, emitting the
mint instructions for ids `unused_token_id, …, unused_token_id + N - 1` in
order and advancing the counter to `unused_token_id + N`. -/
theorem runPurchases_spec (sender : String) (N : Nat) :
    ∀ (c : Config) (cw721 : String),
      c.cw721_address = some cw721 →
      c.unused_token_id + N ≤ c.max_tokens →
      runPurchases c.cw20_address sender c.unit_price (some c) N =
        some (some { c with unused_token_id := c.unused_token_id + N },
          (List.range' c.unused_token_id N).map (fun k =>
            ({ contract_addr := cw721
               msg := { token_id := Nat.repr k
                        owner := sender
                        token_uri := some c.token_uri
                        extension := c.extension } } : WasmExecute))) := by
  induction N with
  | zero =>
    intro c cw721 hlink hcap
    cases c
    simp [runPurchases]
  | succ n ih =>
    intro c cw721 hlink hcap
    have hlt : c.unused_token_id < c.max_tokens := by omega
    have hstep := execute_receive_ok c cw721 sender hlink hlt
    have hih := ih { c with unused_token_id := c.unused_token_id + 1 } cw721
      (by simp [hlink]) (by simp; omega)
    simp only [runPurchases, hstep]
    simp only at hih
    rw [hih]
    simp [List.range'_succ, Nat.add_assoc, Nat.add_comm 1 n]

/-- C3: starting from a linked configuration with `unused_token_id = 0`,
`N ≤ max_tokens` consecutive successful purchases emit exactly `N` mint
instructions whose token ids are the decimal strings of `0, …, N-1` in
order, with no gaps or repeats, and leave the counter at `N`. -/
theorem C3_sequential_mints (c : Config) (cw721 sender : String) (N : Nat)
    (hlink : c.cw721_address = some cw721) (h0 : c.unused_token_id = 0)
    (hN : N ≤ c.max_tokens) :
    runPurchases c.cw20_address sender c.unit_price (some c) N =
      some (some { c with unused_token_id := N },
        (List.range N).map (fun k =>
          ({ contract_addr := cw721
             msg := { token_id := Nat.repr k
                      owner := sender
                      token_uri := some c.token_uri
                      extension := c.extension } } : WasmExecute))) := by
  have h := runPurchases_spec sender N c cw721 hlink (by omega)
  rw [h0] at h
  simpa [List.range_eq_range'] using h

theorem C3_sequential_mints_witness :
    runPurchases cfgLinked.cw20_address "bob" cfgLinked.unit_price
        (some cfgLinked) 3 =
      some (some { cfgLinked with unused_token_id := 3 },
        (List.range 3).map (fun k =>
          ({ contract_addr := "collectionA"
             msg := { token_id := Nat.repr k
                      owner := "bob"
                      token_uri := some cfgLinked.token_uri
                      extension := cfgLinked.extension } } : WasmExecute))) :=
  C3_sequential_mints cfgLinked "collectionA" "bob" 3 rfl rfl (by decide)

end Moni
